import Mathlib

/-!
Shallow embedding of the Gaussian distribution module
(`src/distribution/gaussian.rs` of the `probability` crate).

Floating-point (`f64`) values are modelled as real numbers; the `f64`
infinities produced by `inv_cdf` at the boundary are modelled with `EReal`
(`⊥` for negative infinity, `⊤` for positive infinity).  Bit manipulation on
the 64-bit random word is modelled with `Nat` arithmetic
(`u & 0x7F = u % 128`, `(u >> 8) & 0xFFFFFF = u / 2^8 % 2^24`,
`u & 0x80 ≠ 0 ↔ u / 2^7 % 2 = 1`).  The mutable random source is modelled as
a pair of streams (64-bit words, unit-interval reals) consumed from the
front, and the unbounded rejection loop of `sample` is modelled with fuel.
-/

namespace Gauss

/-- Horner-form polynomial evaluation, from the nested `poly` helper inside
`inv_cdf`: `c[0] + x * (c[1] + x * (c[2] + ... + x * c[7]))`. -/
noncomputable def poly (c : List ℝ) (x : ℝ) : ℝ :=
  c.getD 0 0 + x * (c.getD 1 0 + x * (c.getD 2 0 + x * (c.getD 3 0 + x *
    (c.getD 4 0 + x * (c.getD 5 0 + x * (c.getD 6 0 + x * c.getD 7 0))))))

/-- Coefficient table `A` of `inv_cdf` (central-region numerator). -/
noncomputable def A : List ℝ := [
  3.3871328727963666080e+00, 1.3314166789178437745e+02, 1.9715909503065514427e+03,
  1.3731693765509461125e+04, 4.5921953931549871457e+04, 6.7265770927008700853e+04,
  3.3430575583588128105e+04, 2.5090809287301226727e+03]

/-- Coefficient table `B` of `inv_cdf` (central-region denominator). -/
noncomputable def B : List ℝ := [
  1.0000000000000000000e+00, 4.2313330701600911252e+01, 6.8718700749205790830e+02,
  5.3941960214247511077e+03, 2.1213794301586595867e+04, 3.9307895800092710610e+04,
  2.8729085735721942674e+04, 5.2264952788528545610e+03]

/-- Coefficient table `C` of `inv_cdf` (near-tail numerator). -/
noncomputable def C : List ℝ := [
  1.42343711074968357734e+00, 4.63033784615654529590e+00, 5.76949722146069140550e+00,
  3.64784832476320460504e+00, 1.27045825245236838258e+00, 2.41780725177450611770e-01,
  2.27238449892691845833e-02, 7.74545014278341407640e-04]

/-- Coefficient table `D` of `inv_cdf` (near-tail denominator). -/
noncomputable def D : List ℝ := [
  1.00000000000000000000e+00, 2.05319162663775882187e+00, 1.67638483018380384940e+00,
  6.89767334985100004550e-01, 1.48103976427480074590e-01, 1.51986665636164571966e-02,
  5.47593808499534494600e-04, 1.05075007164441684324e-09]

/-- Coefficient table `E` of `inv_cdf` (far-tail numerator). -/
noncomputable def E : List ℝ := [
  6.65790464350110377720e+00, 5.46378491116411436990e+00, 1.78482653991729133580e+00,
  2.96560571828504891230e-01, 2.65321895265761230930e-02, 1.24266094738807843860e-03,
  2.71155556874348757815e-05, 2.01033439929228813265e-07]

/-- Coefficient table `F` of `inv_cdf` (far-tail denominator). -/
noncomputable def F : List ℝ := [
  1.00000000000000000000e+00, 5.99832206555887937690e-01, 1.36929880922735805310e-01,
  1.48753612908506148525e-02, 7.86869131145613259100e-04, 1.84631831751005468180e-05,
  1.42151175831644588870e-07, 2.04426310338993978564e-15]

/-- The smaller tail probability of the tail branch of `inv_cdf`:
`let mut x = if q < 0 { p } else { 1.0 - p }` with `q = p - 0.5`. -/
noncomputable def tail_r (p : ℝ) : ℝ := if p - 0.5 < 0 then p else 1 - p

/-- The tail branch's `x = (-x.ln()).sqrt()` step of `inv_cdf`. -/
noncomputable def tail_t (p : ℝ) : ℝ := Real.sqrt (-Real.log (tail_r p))

/-- The unsigned magnitude computed by the two tail branches of `inv_cdf`:
near tail (`x <= SPLIT2`) uses `poly(&C, x - 1.6) / poly(&D, x - 1.6)`,
far tail uses `poly(&E, x - 5.0) / poly(&F, x - 5.0)`. -/
noncomputable def tail_mag (p : ℝ) : ℝ :=
  if tail_t p ≤ 5.0 then poly C (tail_t p - 1.6) / poly D (tail_t p - 1.6)
  else poly E (tail_t p - 5.0) / poly F (tail_t p - 5.0)

/-- The free function `inv_cdf` of `gaussian.rs` (AS241): inverse cumulative
distribution function of the standard Gaussian distribution. -/
noncomputable def inv_cdf (p : ℝ) : EReal :=
  if p ≤ 0 then ⊥
  else if 1 ≤ p then ⊤
  else if (if p - 0.5 < 0 then -(p - 0.5) else p - 0.5) ≤ 0.425 then
    (((p - 0.5) * poly A (0.180625 - (p - 0.5) * (p - 0.5))
      / poly B (0.180625 - (p - 0.5) * (p - 0.5)) : ℝ) : EReal)
  else (((if p - 0.5 < 0 then -tail_mag p else tail_mag p) : ℝ) : EReal)

/-- The constant `R` of `gaussian.rs`: right edge of the base Ziggurat layer. -/
noncomputable def R : ℝ := 3.44428647676

/-- The Ziggurat threshold table `K: [u32; 128]` of `gaussian.rs`. -/
def K : List ℕ := [
  0, 12590644, 14272653, 14988939,
  15384584, 15635009, 15807561, 15933577,
  16029594, 16105155, 16166147, 16216399,
  16258508, 16294295, 16325078, 16351831,
  16375291, 16396026, 16414479, 16431002,
  16445880, 16459343, 16471578, 16482744,
  16492970, 16502368, 16511031, 16519039,
  16526459, 16533352, 16539769, 16545755,
  16551348, 16556584, 16561493, 16566101,
  16570433, 16574511, 16578353, 16581977,
  16585398, 16588629, 16591685, 16594575,
  16597311, 16599901, 16602354, 16604679,
  16606881, 16608968, 16610945, 16612818,
  16614592, 16616272, 16617861, 16619363,
  16620782, 16622121, 16623383, 16624570,
  16625685, 16626730, 16627708, 16628619,
  16629465, 16630248, 16630969, 16631628,
  16632228, 16632768, 16633248, 16633671,
  16634034, 16634340, 16634586, 16634774,
  16634903, 16634972, 16634980, 16634926,
  16634810, 16634628, 16634381, 16634066,
  16633680, 16633222, 16632688, 16632075,
  16631380, 16630598, 16629726, 16628757,
  16627686, 16626507, 16625212, 16623794,
  16622243, 16620548, 16618698, 16616679,
  16614476, 16612071, 16609444, 16606571,
  16603425, 16599973, 16596178, 16591995,
  16587369, 16582237, 16576520, 16570120,
  16562917, 16554758, 16545450, 16534739,
  16522287, 16507638, 16490152, 16468907,
  16442518, 16408804, 16364095, 16301683,
  16207738, 16047994, 15704248, 15472926]

/-- The Ziggurat layer-height table `Y: [f64; 128]` of `gaussian.rs`. -/
noncomputable def Y : List ℝ := [
  1.0000000000000, 0.96359862301100, 0.93628081335300, 0.91304110425300,
  0.8922785066960, 0.87323935691900, 0.85549640763400, 0.83877892834900,
  0.8229020836990, 0.80773273823400, 0.79317104551900, 0.77913972650500,
  0.7655774360820, 0.75243445624800, 0.73966978767700, 0.72724912028500,
  0.7151433774130, 0.70332764645500, 0.69178037703500, 0.68048276891000,
  0.6694182972330, 0.65857233912000, 0.64793187618900, 0.63748525489600,
  0.6272219914500, 0.61713261153200, 0.60720851746700, 0.59744187729600,
  0.5878255314650, 0.57835291380300, 0.56901798419800, 0.55981517091100,
  0.5507393208770, 0.54178565668200, 0.53294973914500, 0.52422743462800,
  0.5156148863730, 0.50710848925300, 0.49870486747800, 0.49040085481200,
  0.4821934769860, 0.47407993601000, 0.46605759612500, 0.45812397121400,
  0.4502767134670, 0.44251360317100, 0.43483253947300, 0.42723153202200,
  0.4197086933790, 0.41226223212000, 0.40489044654800, 0.39759171895500,
  0.3903645103820, 0.38320735581600, 0.37611885978800, 0.36909769233400,
  0.3621425852820, 0.35525232883400, 0.34842576841500, 0.34166180177600,
  0.3349593763110, 0.32831748658800, 0.32173517206300, 0.31521151497000,
  0.3087456383670, 0.30233670433800, 0.29598391232000, 0.28968649757100,
  0.2834437297390, 0.27725491156000, 0.27111937764900, 0.26503649338700,
  0.2590056539120, 0.25302628318300, 0.24709783313900, 0.24121978293200,
  0.2353916382390, 0.22961293064900, 0.22388321712200, 0.21820207951800,
  0.2125691242010, 0.20698398170900, 0.20144630649600, 0.19595577674500,
  0.1905120942560, 0.18511498440600, 0.17976419618500, 0.17445950232400,
  0.1692006994920, 0.16398760860000, 0.15882007519500, 0.15369796996400,
  0.1486211893480, 0.14358965629500, 0.13860332114300, 0.13366216266900,
  0.1287661893090, 0.12391544058200, 0.11910998874500, 0.11434994070300,
  0.1096354402300, 0.10496667053300, 0.10034385723200, 0.09576727182660,
  0.0912372357329, 0.08675412501270, 0.08231837593200, 0.07793049152950,
  0.0735910494266, 0.06930071117420, 0.06506023352900, 0.06087048217450,
  0.0567324485840, 0.05264727098000, 0.04861626071630, 0.04464093597690,
  0.0407230655415, 0.03686472673860, 0.03306838393780, 0.02933699774110,
  0.0256741818288, 0.02208443726340, 0.01857352005770, 0.01514905528540,
  0.0118216532614, 0.00860719483079, 0.00553245272614, 0.00265435214565]

/-- The Ziggurat layer-width table `W: [f64; 128]` of `gaussian.rs`. -/
noncomputable def W : List ℝ := [
  1.62318314817e-08, 2.16291505214e-08, 2.54246305087e-08, 2.84579525938e-08,
  3.10340022482e-08, 3.33011726243e-08, 3.53439060345e-08, 3.72152672658e-08,
  3.89509895720e-08, 4.05763964764e-08, 4.21101548915e-08, 4.35664624904e-08,
  4.49563968336e-08, 4.62887864029e-08, 4.75707945735e-08, 4.88083237257e-08,
  5.00063025384e-08, 5.11688950428e-08, 5.22996558616e-08, 5.34016475624e-08,
  5.44775307871e-08, 5.55296344581e-08, 5.65600111659e-08, 5.75704813695e-08,
  5.85626690412e-08, 5.95380306862e-08, 6.04978791776e-08, 6.14434034901e-08,
  6.23756851626e-08, 6.32957121259e-08, 6.42043903937e-08, 6.51025540077e-08,
  6.59909735447e-08, 6.68703634341e-08, 6.77413882848e-08, 6.86046683810e-08,
  6.94607844804e-08, 7.03102820203e-08, 7.11536748229e-08, 7.19914483720e-08,
  7.28240627230e-08, 7.36519550992e-08, 7.44755422158e-08, 7.52952223703e-08,
  7.61113773308e-08, 7.69243740467e-08, 7.77345662086e-08, 7.85422956743e-08,
  7.93478937793e-08, 8.01516825471e-08, 8.09539758128e-08, 8.17550802699e-08,
  8.25552964535e-08, 8.33549196661e-08, 8.41542408569e-08, 8.49535474601e-08,
  8.57531242006e-08, 8.65532538723e-08, 8.73542180955e-08, 8.81562980590e-08,
  8.89597752521e-08, 8.97649321908e-08, 9.05720531451e-08, 9.13814248700e-08,
  9.21933373471e-08, 9.30080845407e-08, 9.38259651738e-08, 9.46472835298e-08,
  9.54723502847e-08, 9.63014833769e-08, 9.71350089201e-08, 9.79732621669e-08,
  9.88165885297e-08, 9.96653446693e-08, 1.00519899658e-07, 1.01380636230e-07,
  1.02247952126e-07, 1.03122261554e-07, 1.04003996769e-07, 1.04893609795e-07,
  1.05791574313e-07, 1.06698387725e-07, 1.07614573423e-07, 1.08540683296e-07,
  1.09477300508e-07, 1.10425042570e-07, 1.11384564771e-07, 1.12356564007e-07,
  1.13341783071e-07, 1.14341015475e-07, 1.15355110887e-07, 1.16384981291e-07,
  1.17431607977e-07, 1.18496049514e-07, 1.19579450872e-07, 1.20683053909e-07,
  1.21808209468e-07, 1.22956391410e-07, 1.24129212952e-07, 1.25328445797e-07,
  1.26556042658e-07, 1.27814163916e-07, 1.29105209375e-07, 1.30431856341e-07,
  1.31797105598e-07, 1.33204337360e-07, 1.34657379914e-07, 1.36160594606e-07,
  1.37718982103e-07, 1.39338316679e-07, 1.41025317971e-07, 1.42787873535e-07,
  1.44635331499e-07, 1.46578891730e-07, 1.48632138436e-07, 1.50811780719e-07,
  1.53138707402e-07, 1.55639532047e-07, 1.58348931426e-07, 1.61313325908e-07,
  1.64596952856e-07, 1.68292495203e-07, 1.72541128694e-07, 1.77574279496e-07,
  1.83813550477e-07, 1.92166040885e-07, 2.05295471952e-07, 2.22600839893e-07]

/-- The caller-supplied random source of `sample`, modelled as the remaining
stream of 64-bit uniform words (`source.read::<u64>()`) and the remaining
stream of unit-interval uniform reals (`source.read::<f64>()`). -/
structure Src where
  words : List ℕ
  reals : List ℝ

/-- Layer index extraction of `sample`: `i = (u & 0x7F) as usize`. -/
def iOf (u : ℕ) : ℕ := u % 2 ^ 64 % 128

/-- 24-bit integer extraction of `sample`: `j = ((u >> 8) & 0xFFFFFF) as u32`. -/
def jOf (u : ℕ) : ℕ := u % 2 ^ 64 / 2 ^ 8 % 2 ^ 24

/-- Sign extraction of `sample`: `s = if u & 0x80 != 0 { 1.0 } else { -1.0 }`. -/
noncomputable def sOf (u : ℕ) : ℝ := if u % 2 ^ 64 / 2 ^ 7 % 2 = 1 then 1 else -1

/-- Outcome of one iteration of the rejection loop in `sample`: either a
`return s * x` or a fall-through to the next iteration. -/
inductive Step where
  | accept (x : ℝ)
  | reject

/-- One iteration of the `loop` in the free function `sample` of
`gaussian.rs`: reads one 64-bit word, then either returns on the fast path,
or reads one uniform real (layers `i < 127`) or two uniform reals (tail
layer `i == 127`) and applies the acceptance test `y < (-0.5 * x * x).exp()`.
Returns `none` when the modelled source stream is exhausted. -/
noncomputable def attempt : Src → Option (Step × Src)
  | ⟨[], _⟩ => none
  | ⟨u :: ws, rs⟩ =>
    if jOf u < K.getD (iOf u) 0 then
      some (.accept (sOf u * ((jOf u : ℝ) * W.getD (iOf u) 0)), ⟨ws, rs⟩)
    else if iOf u < 127 then
      match rs with
      | [] => none
      | v :: vs =>
        let x : ℝ := (jOf u : ℝ) * W.getD (iOf u) 0
        let y : ℝ := Y.getD (iOf u + 1) 0 + (Y.getD (iOf u) 0 - Y.getD (iOf u + 1) 0) * v
        if y < Real.exp (-0.5 * x * x) then some (.accept (sOf u * x), ⟨ws, vs⟩)
        else some (.reject, ⟨ws, vs⟩)
    else
      match rs with
      | [] => none
      | [_] => none
      | v₁ :: v₂ :: vs =>
        let x : ℝ := R - Real.log (1 - v₁) / R
        let y : ℝ := Real.exp (-R * (x - 0.5 * R)) * v₂
        if y < Real.exp (-0.5 * x * x) then some (.accept (sOf u * x), ⟨ws, vs⟩)
        else some (.reject, ⟨ws, vs⟩)

/-- The `loop` of the free function `sample`, with explicit fuel bounding the
number of rejection-loop iterations; `none` when the fuel or the modelled
source runs out. -/
noncomputable def sampleLoop : ℕ → Src → Option (ℝ × Src)
  | 0, _ => none
  | n + 1, s =>
    match attempt s with
    | none => none
    | some (.accept x, s') => some (x, s')
    | some (.reject, s') => sampleLoop n s'

end Gauss

/-- The `Gaussian` struct of `gaussian.rs`: fields `mu` and `sigma`. -/
structure Gaussian where
  mu : ℝ
  sigma : ℝ

/-- `distribution::Inverse for Gaussian`:
`fn inv_cdf(&self, p: f64) -> f64 { self.mu + self.sigma * inv_cdf(p) }`,
with the `f64` infinities carried by `EReal`. -/
noncomputable def Gaussian.inv_cdf (g : Gaussian) (p : ℝ) : EReal :=
  (g.mu : EReal) + (g.sigma : EReal) * Gauss.inv_cdf p

/-- `distribution::Sample for Gaussian`:
`fn sample<S>(&self, source: &mut S) -> f64 { self.sigma * sample(source) + self.mu }`,
with the standard sampler's loop modelled by `Gauss.sampleLoop`. -/
noncomputable def Gaussian.sample (g : Gaussian) (fuel : ℕ) (s : Gauss.Src) :
    Option (ℝ × Gauss.Src) :=
  (Gauss.sampleLoop fuel s).map (fun r => (g.sigma * r.1 + g.mu, r.2))

namespace Gauss

/-- Modelled from the spec: the `should!` precondition check guarding
`inv_cdf` (`should!(0.0 <= p && p <= 1.0)`); the macro's definition is not
among the sources here.  Per the spec, `inv_cdf` "fails with
`InvalidArgument`" when `p` lies outside `[0, 1]`; the single error
condition is modelled by `Except.error ()`. -/
noncomputable def inv_cdf_checked (p : ℝ) : Except Unit EReal :=
  if 0 ≤ p ∧ p ≤ 1 then .ok (inv_cdf p) else .error ()

theorem inv_cdf_of_nonpos {p : ℝ} (h : p ≤ 0) : inv_cdf p = ⊥ := by
  simp [inv_cdf, h]

theorem inv_cdf_of_one_le {p : ℝ} (h : 1 ≤ p) : inv_cdf p = ⊤ := by
  have h0 : ¬ p ≤ 0 := by linarith
  simp [inv_cdf, h, h0]

theorem inv_cdf_half : inv_cdf 0.5 = ((0 : ℝ) : EReal) := by
  norm_num [inv_cdf]

end Gauss

/-- Claim C4: for every `p ≤ 0` the standard `inv_cdf` returns negative
infinity, and for every `p ≥ 1` it returns positive infinity; both checks
are non-strict and precede all polynomial evaluation. -/
theorem C4_inv_cdf_boundaries (p : ℝ) :
    (p ≤ 0 → Gauss.inv_cdf p = ⊥) ∧ (1 ≤ p → Gauss.inv_cdf p = ⊤) :=
  ⟨fun h => Gauss.inv_cdf_of_nonpos h, fun h => Gauss.inv_cdf_of_one_le h⟩

/-- Witness for C4: the boundary values `p = 0` and `p = 1` themselves. -/
theorem C4_inv_cdf_boundaries_witness :
    Gauss.inv_cdf 0 = ⊥ ∧ Gauss.inv_cdf 1 = ⊤ :=
  ⟨(C4_inv_cdf_boundaries 0).1 le_rfl, (C4_inv_cdf_boundaries 1).2 le_rfl⟩

/-- Claim C7: `inv_cdf` has precondition `0 ≤ p ≤ 1` and fails with the
`InvalidArgument` condition exactly when `p` is strictly outside `[0, 1]`;
the boundary inputs `p = 0` and `p = 1` are valid and map to the signed
infinities, not to errors. -/
theorem C7_inv_cdf_precondition (p : ℝ) :
    (Gauss.inv_cdf_checked p = .error () ↔ p < 0 ∨ 1 < p) ∧
    Gauss.inv_cdf_checked 0 = .ok ⊥ ∧ Gauss.inv_cdf_checked 1 = .ok ⊤ := by
  refine ⟨?_, ?_, ?_⟩
  · rw [Gauss.inv_cdf_checked]
    split_ifs with h
    · simp only [reduceCtorEq, false_iff]
      push_neg
      exact ⟨h.1, h.2⟩
    · simp only [true_iff]
      rcases not_and_or.mp h with h' | h'
      · exact Or.inl (lt_of_not_le h')
      · exact Or.inr (lt_of_not_le h')
  · rw [Gauss.inv_cdf_checked, if_pos (by norm_num),
      Gauss.inv_cdf_of_nonpos le_rfl]
  · rw [Gauss.inv_cdf_checked, if_pos (by norm_num),
      Gauss.inv_cdf_of_one_le le_rfl]

/-- Witness for C7: `p = 2` is rejected as `InvalidArgument`, while the
boundary inputs succeed with the signed infinities. -/
theorem C7_inv_cdf_precondition_witness :
    Gauss.inv_cdf_checked 2 = .error () ∧
    Gauss.inv_cdf_checked 0 = .ok ⊥ ∧ Gauss.inv_cdf_checked 1 = .ok ⊤ :=
  ⟨(C7_inv_cdf_precondition 2).1.mpr (Or.inr (by norm_num)),
   (C7_inv_cdf_precondition 0).2.1, (C7_inv_cdf_precondition 1).2.2⟩

/-- Claim C8: for every valid parameterization (`sigma > 0`),
`Gaussian.inv_cdf` at `p = 0.5` returns exactly `mu`: the standard
`inv_cdf 0.5` is exactly `0` and `mu + sigma * 0 = mu`. -/
theorem C8_inv_cdf_median (g : Gaussian) (_h : 0 < g.sigma) :
    Gauss.inv_cdf 0.5 = ((0 : ℝ) : EReal) ∧
    g.inv_cdf 0.5 = ((g.mu : ℝ) : EReal) := by
  refine ⟨Gauss.inv_cdf_half, ?_⟩
  rw [Gaussian.inv_cdf, Gauss.inv_cdf_half, ← EReal.coe_mul, mul_zero,
    ← EReal.coe_add, add_zero]

/-- Witness for C8: the Gaussian with `mu = 3`, `sigma = 2`. -/
theorem C8_inv_cdf_median_witness :
    Gauss.inv_cdf 0.5 = ((0 : ℝ) : EReal) ∧
    Gaussian.inv_cdf ⟨3, 2⟩ 0.5 = ((3 : ℝ) : EReal) :=
  C8_inv_cdf_median ⟨3, 2⟩ (by norm_num)

/-- Claim C5: the distribution-level operations are the affine images of the
standard ones: `Gaussian.inv_cdf g p = mu + sigma * inv_cdf p`, and
`Gaussian.sample` returns `mu + sigma * x` where `x` is the standard sample
produced from the same bits of the source. -/
theorem C5_affine_relations (g : Gaussian) (p : ℝ) (fuel : ℕ) (s : Gauss.Src) :
    g.inv_cdf p = (g.mu : EReal) + (g.sigma : EReal) * Gauss.inv_cdf p ∧
    g.sample fuel s =
      (Gauss.sampleLoop fuel s).map (fun r => (g.mu + g.sigma * r.1, r.2)) := by
  refine ⟨rfl, ?_⟩
  rw [Gaussian.sample]
  cases Gauss.sampleLoop fuel s with
  | none => rfl
  | some r =>
    simp only [Option.map_some']
    rw [add_comm]


/-- The sign-selection step of `inv_cdf` computes the absolute value of `q`. -/
theorem if_neg_abs (q : ℝ) : (if q < 0 then -q else q) = |q| := by
  rcases lt_or_le q 0 with h | h
  · rw [if_pos h, abs_of_neg h]
  · rw [if_neg (not_lt.mpr h), abs_of_nonneg h]

/-- Claim C1: the standard `inv_cdf` follows the three-region AS241 scheme:
with `q = p - 0.5`, if `|q| ≤ 0.425` it returns `q * P1(u) / Q1(u)` at
`u = 0.180625 - q*q`; otherwise it sets `r = p` when `q < 0` and `r = 1 - p`
when `q ≥ 0`, computes `t = sqrt(-ln r)`, uses the near-tail pair at
`u = t - 1.6` when `t ≤ 5` and the far-tail pair at `u = t - 5` when
`t > 5`, and negates the magnitude exactly when `q < 0`. -/
theorem C1_inv_cdf_three_regions (p : ℝ) (h0 : 0 < p) (h1 : p < 1) :
    (|p - 0.5| ≤ 0.425 →
      Gauss.inv_cdf p =
        (((p - 0.5) * Gauss.poly Gauss.A (0.180625 - (p - 0.5) * (p - 0.5)) /
          Gauss.poly Gauss.B (0.180625 - (p - 0.5) * (p - 0.5)) : ℝ) : EReal)) ∧
    (¬ |p - 0.5| ≤ 0.425 →
      ∀ r t, r = (if p - 0.5 < 0 then p else 1 - p) →
        t = Real.sqrt (-Real.log r) →
        ((t ≤ 5.0 →
          Gauss.inv_cdf p =
            (((if p - 0.5 < 0 then
                -(Gauss.poly Gauss.C (t - 1.6) / Gauss.poly Gauss.D (t - 1.6))
              else
                Gauss.poly Gauss.C (t - 1.6) / Gauss.poly Gauss.D (t - 1.6)) : ℝ) : EReal)) ∧
        (5.0 < t →
          Gauss.inv_cdf p =
            (((if p - 0.5 < 0 then
                -(Gauss.poly Gauss.E (t - 5.0) / Gauss.poly Gauss.F (t - 5.0))
              else
                Gauss.poly Gauss.E (t - 5.0) / Gauss.poly Gauss.F (t - 5.0)) : ℝ) : EReal)))) := by
  have hp0 : ¬ p ≤ 0 := by linarith
  have hp1 : ¬ 1 ≤ p := by linarith
  constructor
  · intro hq
    rw [Gauss.inv_cdf, if_neg hp0, if_neg hp1, if_neg_abs, if_pos hq]
  · intro hq r t hr ht
    have hmag : Gauss.tail_t p = t := by
      rw [ht, hr, Gauss.tail_t, Gauss.tail_r]
    constructor
    · intro hnear
      rw [Gauss.inv_cdf, if_neg hp0, if_neg hp1, if_neg_abs, if_neg hq,
        Gauss.tail_mag, hmag, if_pos hnear]
    · intro hfar
      rw [Gauss.inv_cdf, if_neg hp0, if_neg hp1, if_neg_abs, if_neg hq,
        Gauss.tail_mag, hmag, if_neg (not_le.mpr hfar)]

/-- Witness for C1: `p = 0.5` falls in the central region. -/
theorem C1_inv_cdf_three_regions_witness :
    Gauss.inv_cdf 0.5 =
      (((0.5 - 0.5) * Gauss.poly Gauss.A (0.180625 - (0.5 - 0.5) * (0.5 - 0.5)) /
        Gauss.poly Gauss.B (0.180625 - (0.5 - 0.5) * (0.5 - 0.5)) : ℝ) : EReal) :=
  (C1_inv_cdf_three_regions 0.5 (by norm_num) (by norm_num)).1 (by norm_num)

/-- Unfolding equation for `attempt` on a source with at least one word. -/
theorem attempt_cons (u : ℕ) (ws : List ℕ) (rs : List ℝ) :
    Gauss.attempt ⟨u :: ws, rs⟩ =
      (if Gauss.jOf u < Gauss.K.getD (Gauss.iOf u) 0 then
        some (.accept (Gauss.sOf u *
          ((Gauss.jOf u : ℝ) * Gauss.W.getD (Gauss.iOf u) 0)), ⟨ws, rs⟩)
      else if Gauss.iOf u < 127 then
        match rs with
        | [] => none
        | v :: vs =>
          let x : ℝ := (Gauss.jOf u : ℝ) * Gauss.W.getD (Gauss.iOf u) 0
          let y : ℝ := Gauss.Y.getD (Gauss.iOf u + 1) 0 +
            (Gauss.Y.getD (Gauss.iOf u) 0 - Gauss.Y.getD (Gauss.iOf u + 1) 0) * v
          if y < Real.exp (-0.5 * x * x) then
            some (.accept (Gauss.sOf u * x), ⟨ws, vs⟩)
          else some (.reject, ⟨ws, vs⟩)
      else
        match rs with
        | [] => none
        | [_] => none
        | v₁ :: v₂ :: vs =>
          let x : ℝ := Gauss.R - Real.log (1 - v₁) / Gauss.R
          let y : ℝ := Real.exp (-Gauss.R * (x - 0.5 * Gauss.R)) * v₂
          if y < Real.exp (-0.5 * x * x) then
            some (.accept (Gauss.sOf u * x), ⟨ws, vs⟩)
          else some (.reject, ⟨ws, vs⟩)) :=
  rfl

/-- The layer index extracted by `sample` is one of `0..127`. -/
theorem iOf_lt_128 (u : ℕ) : Gauss.iOf u < 128 :=
  Nat.mod_lt _ (by norm_num)

/-- Claim C2: each attempt of `sample` draws one 64-bit word `u`, extracts
the layer index `i = u & 0x7F` (a value in `0..127`), the 24-bit integer
`j = (u >> 8) & 0xFFFFFF`, and a sign that is `+1` when bit 7 of `u` is set
and `-1` otherwise; whenever `j < K[i]`, it immediately returns
`sign * j * W[i]`, consuming nothing further from the source. -/
theorem C2_fast_path (u : ℕ) (ws : List ℕ) (rs : List ℝ)
    (hfast : Gauss.jOf u < Gauss.K.getD (Gauss.iOf u) 0) :
    Gauss.iOf u < 128 ∧
    Gauss.iOf u = u % 2 ^ 64 % 128 ∧
    Gauss.jOf u = u % 2 ^ 64 / 2 ^ 8 % 2 ^ 24 ∧
    Gauss.sOf u = (if u % 2 ^ 64 / 2 ^ 7 % 2 = 1 then (1 : ℝ) else -1) ∧
    Gauss.attempt ⟨u :: ws, rs⟩ =
      some (.accept (Gauss.sOf u *
        ((Gauss.jOf u : ℝ) * Gauss.W.getD (Gauss.iOf u) 0)), ⟨ws, rs⟩) := by
  refine ⟨iOf_lt_128 u, rfl, rfl, rfl, ?_⟩
  rw [attempt_cons, if_pos hfast]

/-- Witness for C2: the word `u = 1` selects layer 1 with `j = 0 < K[1]`. -/
theorem C2_fast_path_witness :
    Gauss.iOf 1 < 128 ∧
    Gauss.iOf 1 = 1 % 2 ^ 64 % 128 ∧
    Gauss.jOf 1 = 1 % 2 ^ 64 / 2 ^ 8 % 2 ^ 24 ∧
    Gauss.sOf 1 = (if 1 % 2 ^ 64 / 2 ^ 7 % 2 = 1 then (1 : ℝ) else -1) ∧
    Gauss.attempt ⟨[1], []⟩ =
      some (.accept (Gauss.sOf 1 *
        ((Gauss.jOf 1 : ℝ) * Gauss.W.getD (Gauss.iOf 1) 0)), ⟨[], []⟩) :=
  C2_fast_path 1 [] [] (by decide)

/-- Claim C9: the fast-path return is unreachable for layer index 0:
`K[0] = 0` and the fast-path test is a strict comparison on unsigned
integers, so every word `u` with `u & 0x7F = 0` proceeds to the slow-path
wedge acceptance test. -/
theorem C9_layer_zero_no_fast_path (u : ℕ) (h : Gauss.iOf u = 0) :
    Gauss.K.getD (Gauss.iOf u) 0 = 0 ∧
    ¬ Gauss.jOf u < Gauss.K.getD (Gauss.iOf u) 0 ∧
    ∀ ws v vs,
      Gauss.attempt ⟨u :: ws, v :: vs⟩ =
        (if Gauss.Y.getD 1 0 + (Gauss.Y.getD 0 0 - Gauss.Y.getD 1 0) * v <
            Real.exp (-0.5 * ((Gauss.jOf u : ℝ) * Gauss.W.getD 0 0) *
              ((Gauss.jOf u : ℝ) * Gauss.W.getD 0 0)) then
          some (.accept (Gauss.sOf u *
            ((Gauss.jOf u : ℝ) * Gauss.W.getD 0 0)), ⟨ws, vs⟩)
        else some (.reject, ⟨ws, vs⟩)) := by
  rw [h]
  refine ⟨rfl, Nat.not_lt_zero _, ?_⟩
  intro ws v vs
  rw [attempt_cons]
  simp only [h]
  rw [if_neg (show ¬ Gauss.jOf u < Gauss.K.getD 0 0 from Nat.not_lt_zero _),
    if_pos (show (0 : ℕ) < 127 by norm_num)]

/-- Witness for C9: the word `u = 0` with one uniform real available. -/
theorem C9_layer_zero_no_fast_path_witness :
    Gauss.K.getD (Gauss.iOf 0) 0 = 0 ∧
    ¬ Gauss.jOf 0 < Gauss.K.getD (Gauss.iOf 0) 0 ∧
    Gauss.attempt ⟨[0], [(0 : ℝ)]⟩ =
      (if Gauss.Y.getD 1 0 + (Gauss.Y.getD 0 0 - Gauss.Y.getD 1 0) * 0 <
          Real.exp (-0.5 * ((Gauss.jOf 0 : ℝ) * Gauss.W.getD 0 0) *
            ((Gauss.jOf 0 : ℝ) * Gauss.W.getD 0 0)) then
        some (.accept (Gauss.sOf 0 *
          ((Gauss.jOf 0 : ℝ) * Gauss.W.getD 0 0)), ⟨[], []⟩)
      else some (.reject, ⟨[], []⟩)) := by
  obtain ⟨h1, h2, h3⟩ := C9_layer_zero_no_fast_path 0 rfl
  exact ⟨h1, h2, h3 [] 0 []⟩

/-- Claim C3: on the slow path with `i < 127`, `sample` computes
`x = j * W[i]` and `y = Y[i+1] + (Y[i] - Y[i+1]) * v` from one fresh uniform
real `v`, returning `sign * x` iff `y < exp(-x*x/2)` and rejecting
otherwise; on the tail layer `i = 127` it computes `x = R - ln(1 - v₁)/R`
and `y = exp(-R*(x - R/2)) * v₂` from two fresh uniform reals, returning
`sign * x` iff `y < exp(-x*x/2)` and rejecting otherwise. -/
theorem C3_slow_path (u : ℕ) (ws : List ℕ) (v₁ v₂ : ℝ) (vs : List ℝ)
    (hslow : ¬ Gauss.jOf u < Gauss.K.getD (Gauss.iOf u) 0) :
    (Gauss.iOf u < 127 →
      ∀ x y, x = (Gauss.jOf u : ℝ) * Gauss.W.getD (Gauss.iOf u) 0 →
        y = Gauss.Y.getD (Gauss.iOf u + 1) 0 +
          (Gauss.Y.getD (Gauss.iOf u) 0 - Gauss.Y.getD (Gauss.iOf u + 1) 0) * v₁ →
        ((y < Real.exp (-(x * x) / 2) →
          Gauss.attempt ⟨u :: ws, v₁ :: vs⟩ =
            some (.accept (Gauss.sOf u * x), ⟨ws, vs⟩)) ∧
        (¬ y < Real.exp (-(x * x) / 2) →
          Gauss.attempt ⟨u :: ws, v₁ :: vs⟩ = some (.reject, ⟨ws, vs⟩)))) ∧
    (Gauss.iOf u = 127 →
      ∀ x y, x = Gauss.R - Real.log (1 - v₁) / Gauss.R →
        y = Real.exp (-Gauss.R * (x - Gauss.R / 2)) * v₂ →
        ((y < Real.exp (-(x * x) / 2) →
          Gauss.attempt ⟨u :: ws, v₁ :: v₂ :: vs⟩ =
            some (.accept (Gauss.sOf u * x), ⟨ws, vs⟩)) ∧
        (¬ y < Real.exp (-(x * x) / 2) →
          Gauss.attempt ⟨u :: ws, v₁ :: v₂ :: vs⟩ = some (.reject, ⟨ws, vs⟩)))) := by
  have hexp : ∀ x : ℝ, -(x * x) / 2 = -0.5 * x * x := by intro x; ring
  constructor
  · intro hi x y hx hy
    rw [attempt_cons, if_neg hslow, if_pos hi]
    subst hx hy
    rw [hexp]
    constructor
    · intro hacc
      exact if_pos hacc
    · intro hrej
      exact if_neg hrej
  · intro hi x y hx hy
    rw [attempt_cons, if_neg hslow, if_neg (by rw [hi]; norm_num)]
    subst hx hy
    rw [hexp]
    have hhalf : Gauss.R / 2 = 0.5 * Gauss.R := by ring
    rw [hhalf]
    constructor
    · intro hacc
      exact if_pos hacc
    · intro hrej
      exact if_neg hrej

/-- Witness for C3: the word `u = 0` (layer 0, necessarily slow path) with
uniform real `v = 0` is accepted by the wedge test, since the wedge point
`Y[1]` lies below `exp(0) = 1`. -/
theorem C3_slow_path_witness :
    Gauss.attempt ⟨[0], [(0 : ℝ)]⟩ =
      some (.accept (Gauss.sOf 0 *
        ((Gauss.jOf 0 : ℝ) * Gauss.W.getD (Gauss.iOf 0) 0)), ⟨[], []⟩) := by
  have h := ((C3_slow_path 0 [] 0 0 [] (by decide)).1 (by decide)
    ((Gauss.jOf 0 : ℝ) * Gauss.W.getD (Gauss.iOf 0) 0)
    (Gauss.Y.getD (Gauss.iOf 0 + 1) 0 +
      (Gauss.Y.getD (Gauss.iOf 0) 0 - Gauss.Y.getD (Gauss.iOf 0 + 1) 0) * 0)
    rfl rfl).1
  apply h
  have h0 : ((Gauss.jOf 0 : ℝ) * Gauss.W.getD (Gauss.iOf 0) 0) = 0 := by
    norm_num [Gauss.jOf]
  rw [h0]
  have hi : Gauss.iOf 0 = 0 := rfl
  rw [hi]
  norm_num [Gauss.Y, Real.exp_zero]

/-- A concrete slow-path tail attempt: the word `4294967167` has layer index
127 and `j = 0xFFFFFF ≥ K[127]`, and with `v₁ = v₂ = 0` the tail candidate
is accepted (its `y` is `0`, below the positive density value). -/
theorem attempt_tail_example :
    Gauss.attempt ⟨[4294967167], [(0 : ℝ), 0]⟩ =
      some (.accept (Gauss.sOf 4294967167 *
        (Gauss.R - Real.log (1 - 0) / Gauss.R)), ⟨[], []⟩) := by
  rw [attempt_cons, if_neg (by decide), if_neg (by decide)]
  exact if_pos (by rw [mul_zero]; exact Real.exp_pos _)

/-- Claim C10: assuming the uniform reals lie in `[0, 1)`, any value
accepted by the tail branch of `sample` (layer 127, slow path) has absolute
magnitude at least `R`, since `x = R - ln(1 - v₁)/R` subtracts a
non-positive term from `R`. -/
theorem C10_tail_magnitude (u : ℕ) (ws : List ℕ) (v₁ v₂ : ℝ) (vs : List ℝ)
    (z : ℝ) (s' : Gauss.Src)
    (hi : Gauss.iOf u = 127)
    (hslow : ¬ Gauss.jOf u < Gauss.K.getD (Gauss.iOf u) 0)
    (hv0 : 0 ≤ v₁) (hv1 : v₁ < 1)
    (hacc : Gauss.attempt ⟨u :: ws, v₁ :: v₂ :: vs⟩ = some (.accept z, s')) :
    Gauss.R ≤ |z| := by
  rw [attempt_cons, if_neg hslow, if_neg (by rw [hi]; norm_num)] at hacc
  have hacc' :
      (if Real.exp (-Gauss.R * (Gauss.R - Real.log (1 - v₁) / Gauss.R -
            0.5 * Gauss.R)) * v₂ <
          Real.exp (-0.5 * (Gauss.R - Real.log (1 - v₁) / Gauss.R) *
            (Gauss.R - Real.log (1 - v₁) / Gauss.R)) then
        some (Gauss.Step.accept (Gauss.sOf u *
          (Gauss.R - Real.log (1 - v₁) / Gauss.R)), (⟨ws, vs⟩ : Gauss.Src))
      else some (Gauss.Step.reject, (⟨ws, vs⟩ : Gauss.Src))) =
        some (.accept z, s') := hacc
  have hR : (0 : ℝ) < Gauss.R := by norm_num [Gauss.R]
  have hlog : Real.log (1 - v₁) ≤ 0 :=
    Real.log_nonpos (by linarith) (by linarith)
  have hdiv : Real.log (1 - v₁) / Gauss.R ≤ 0 :=
    div_nonpos_iff.mpr (Or.inr ⟨hlog, hR.le⟩)
  have hx : Gauss.R ≤ Gauss.R - Real.log (1 - v₁) / Gauss.R := by linarith
  have hs : |Gauss.sOf u| = 1 := by
    rw [Gauss.sOf]; split_ifs <;> simp
  split_ifs at hacc' with hc
  · simp only [Option.some.injEq, Prod.mk.injEq, Gauss.Step.accept.injEq]
      at hacc'
    obtain ⟨hz, -⟩ := hacc'
    rw [← hz, abs_mul, hs, one_mul, abs_of_nonneg (by linarith)]
    exact hx
  · simp only [Option.some.injEq, Prod.mk.injEq, reduceCtorEq, false_and]
      at hacc'

/-- Witness for C10: the accepted tail attempt of `attempt_tail_example`
indeed has magnitude at least `R`. -/
theorem C10_tail_magnitude_witness :
    Gauss.R ≤ |Gauss.sOf 4294967167 * (Gauss.R - Real.log (1 - 0) / Gauss.R)| :=
  C10_tail_magnitude 4294967167 [] 0 0 []
    (Gauss.sOf 4294967167 * (Gauss.R - Real.log (1 - 0) / Gauss.R)) ⟨[], []⟩
    (by decide) (by decide) le_rfl (by norm_num) attempt_tail_example

/-- Counterexample for C6: the word `4294967167` (layer 127, `j ≥ K[127]`,
hence slow path) together with two uniform reals: the attempt consumes both
reals (none remain of the two supplied), not exactly one as claimed. -/
theorem C6_consumption_counterexample :
    ¬ Gauss.jOf 4294967167 < Gauss.K.getD (Gauss.iOf 4294967167) 0 ∧
    (Gauss.attempt ⟨[4294967167], [(0 : ℝ), 0]⟩).map
      (fun r => r.2.reals.length) = some 0 ∧
    (Gauss.attempt ⟨[4294967167], [(0 : ℝ), 0]⟩).map
      (fun r => r.2.reals.length) ≠ some 1 := by
  refine ⟨by decide, ?_, ?_⟩
  · rw [attempt_tail_example]; rfl
  · rw [attempt_tail_example]; simp

/-- Claim C6 (amended): each successful attempt of the sampling loop
consumes exactly one 64-bit word from the source; the fast path consumes no
uniform real, a slow-path attempt on a layer `i < 127` consumes exactly one
uniform real, and a slow-path attempt on the tail layer `i = 127` consumes
exactly two uniform reals. -/
theorem C6_consumption_amended (u : ℕ) (ws : List ℕ) (rs : List ℝ)
    (st : Gauss.Step) (s' : Gauss.Src)
    (h : Gauss.attempt ⟨u :: ws, rs⟩ = some (st, s')) :
    s'.words = ws ∧
    (Gauss.jOf u < Gauss.K.getD (Gauss.iOf u) 0 → s'.reals = rs) ∧
    (¬ Gauss.jOf u < Gauss.K.getD (Gauss.iOf u) 0 → Gauss.iOf u < 127 →
      s'.reals.length + 1 = rs.length) ∧
    (¬ Gauss.jOf u < Gauss.K.getD (Gauss.iOf u) 0 → ¬ Gauss.iOf u < 127 →
      s'.reals.length + 2 = rs.length) := by
  rw [attempt_cons] at h
  by_cases hfast : Gauss.jOf u < Gauss.K.getD (Gauss.iOf u) 0
  · rw [if_pos hfast] at h
    simp only [Option.some.injEq, Prod.mk.injEq] at h
    obtain ⟨-, rfl⟩ := h
    exact ⟨rfl, fun _ => rfl, fun hc _ => absurd hfast hc,
      fun hc _ => absurd hfast hc⟩
  · rw [if_neg hfast] at h
    by_cases hi : Gauss.iOf u < 127
    · rw [if_pos hi] at h
      cases rs with
      | nil => exact Option.noConfusion h
      | cons v vs =>
        have h' :
            (if Gauss.Y.getD (Gauss.iOf u + 1) 0 +
                (Gauss.Y.getD (Gauss.iOf u) 0 -
                  Gauss.Y.getD (Gauss.iOf u + 1) 0) * v <
                Real.exp (-0.5 *
                  ((Gauss.jOf u : ℝ) * Gauss.W.getD (Gauss.iOf u) 0) *
                  ((Gauss.jOf u : ℝ) * Gauss.W.getD (Gauss.iOf u) 0)) then
              some (Gauss.Step.accept (Gauss.sOf u *
                ((Gauss.jOf u : ℝ) * Gauss.W.getD (Gauss.iOf u) 0)),
                (⟨ws, vs⟩ : Gauss.Src))
            else some (Gauss.Step.reject, (⟨ws, vs⟩ : Gauss.Src))) =
              some (st, s') := h
        split_ifs at h' <;>
        · simp only [Option.some.injEq, Prod.mk.injEq] at h'
          obtain ⟨-, rfl⟩ := h'
          exact ⟨rfl, fun hc => absurd hc hfast, fun _ _ => by simp,
            fun _ hc => absurd hi hc⟩
    · rw [if_neg hi] at h
      cases rs with
      | nil => exact Option.noConfusion h
      | cons v rs' =>
        cases rs' with
        | nil => exact Option.noConfusion h
        | cons v₂ vs =>
          have h' :
              (if Real.exp (-Gauss.R * (Gauss.R - Real.log (1 - v) / Gauss.R -
                    0.5 * Gauss.R)) * v₂ <
                  Real.exp (-0.5 * (Gauss.R - Real.log (1 - v) / Gauss.R) *
                    (Gauss.R - Real.log (1 - v) / Gauss.R)) then
                some (Gauss.Step.accept (Gauss.sOf u *
                  (Gauss.R - Real.log (1 - v) / Gauss.R)),
                  (⟨ws, vs⟩ : Gauss.Src))
              else some (Gauss.Step.reject, (⟨ws, vs⟩ : Gauss.Src))) =
                some (st, s') := h
          split_ifs at h' <;>
          · simp only [Option.some.injEq, Prod.mk.injEq] at h'
            obtain ⟨-, rfl⟩ := h'
            exact ⟨rfl, fun hc => absurd hc hfast, fun _ hc => absurd hc hi,
              fun _ _ => by simp⟩

/-- Witness for C6 (amended): a fast-path attempt (word `u = 1`) leaves the
source's streams untouched apart from the one consumed word. -/
theorem C6_consumption_amended_witness :
    (Gauss.Src.mk [] [(0 : ℝ)]).words = ([] : List ℕ) ∧
    (Gauss.jOf 1 < Gauss.K.getD (Gauss.iOf 1) 0 →
      (Gauss.Src.mk [] [(0 : ℝ)]).reals = ([(0 : ℝ)] : List ℝ)) ∧
    (¬ Gauss.jOf 1 < Gauss.K.getD (Gauss.iOf 1) 0 → Gauss.iOf 1 < 127 →
      (Gauss.Src.mk [] [(0 : ℝ)]).reals.length + 1 =
        ([(0 : ℝ)] : List ℝ).length) ∧
    (¬ Gauss.jOf 1 < Gauss.K.getD (Gauss.iOf 1) 0 → ¬ Gauss.iOf 1 < 127 →
      (Gauss.Src.mk [] [(0 : ℝ)]).reals.length + 2 =
        ([(0 : ℝ)] : List ℝ).length) := by
  have hatt : Gauss.attempt ⟨[1], [(0 : ℝ)]⟩ =
      some (.accept (Gauss.sOf 1 *
        ((Gauss.jOf 1 : ℝ) * Gauss.W.getD (Gauss.iOf 1) 0)), ⟨[], [0]⟩) := by
    rw [attempt_cons, if_pos (by decide)]
  exact C6_consumption_amended 1 [] [(0 : ℝ)] _ _ hatt
